import Mathlib

/-
Verification of the audio playback / session-control core of the
English-Learning web application.

The development shallowly embeds the relevant source functions:

* the PCM decoder `decodeAudioData` (geminiService),
* the `VoicePlayer` playback engine: its state, `stopAudio`,
  `playFromOffset`, `handleTogglePlay`, the `source.onended` handler,
  the `updateProgress` reporter tick and the `[base64Audio]` effect,
* the `App` session controller: `startPractice`, the Generate button,
  `toggleSlowMode`, `handleWordClick` and `activeTurnIndex`.

JavaScript numbers are modelled as rationals (ℚ); all arithmetic the
claims exercise is exact.  Stateful React code is modelled as explicit
state-passing functions; the outcome of an awaited external request is
passed in as an `Except`/`Option` parameter.  Emitted progress reports
(calls of the `onProgressUpdate` callback) are returned as a `List ℚ`.
-/

namespace EnglishLearning

/-! ## PCM decoder (`decodeAudioData` in geminiService) -/

/-- Reassemble two bytes, little-endian, into a signed 16-bit integer,
exactly as an `Int16Array` view reinterprets the underlying byte buffer
(two's complement). -/
def toInt16 (lo hi : ℕ) : ℤ :=
  let v : ℕ := lo + 256 * hi
  if v < 32768 then (v : ℤ) else (v : ℤ) - 65536

/-- The `Int16Array` view of a byte buffer: consecutive little-endian
byte pairs; a trailing lone byte cannot occur because the constructor
rejects buffers of odd byte length (handled in `decodeAudioData`). -/
def bytesToInt16 : List ℕ → List ℤ
  | lo :: hi :: rest => toInt16 lo hi :: bytesToInt16 rest
  | _ => []

/-- The decoded audio buffer (mirrors the Web-Audio `AudioBuffer` the
source fills): per-channel sample data, frame count (`length`) and
sample rate. -/
structure DecodedBuffer where
  numberOfChannels : ℕ
  length : ℕ
  sampleRate : ℚ
  channelData : List (List ℚ)
deriving DecidableEq

/-- `AudioBuffer.duration = length / sampleRate`. -/
def DecodedBuffer.duration (b : DecodedBuffer) : ℚ :=
  (b.length : ℚ) / b.sampleRate

/-- Embedding of `decodeAudioData(data, ctx, sampleRate, numChannels)`.
`new Int16Array(data.buffer)` throws a `RangeError` when the byte length
is odd.  The source computes `frameCount = dataInt16.length / numChannels`
with JavaScript real division and passes it to `ctx.createBuffer`, whose
WebIDL `unsigned long` coercion truncates it to the floor (modelled here
by ℕ division); loop iterations past the floor write out of the bounds of
the `Float32Array`, which is a silent no-op, so the effective channel data
has exactly `⌊samples / numChannels⌋` frames.  `createBuffer` throws a
`NotSupportedError` when that frame count is zero. -/
def decodeAudioData (data : List ℕ) (sampleRate : ℚ) (numChannels : ℕ) :
    Except String DecodedBuffer :=
  if data.length % 2 ≠ 0 then
    Except.error "RangeError: byte length of Int16Array should be a multiple of 2"
  else
    let dataInt16 := bytesToInt16 data
    let frameCount := dataInt16.length / numChannels
    if frameCount = 0 then
      Except.error "NotSupportedError: createBuffer requires a positive length"
    else
      Except.ok
        { numberOfChannels := numChannels
          length := frameCount
          sampleRate := sampleRate
          channelData :=
            (List.range numChannels).map (fun channel =>
              (List.range frameCount).map (fun i =>
                ((dataInt16.getD (i * numChannels + channel) 0 : ℤ) : ℚ) / 32768)) }

/-- Sample `i` of channel `channel` of a decoded buffer. -/
def sampleAt (b : DecodedBuffer) (channel i : ℕ) : ℚ :=
  (b.channelData.getD channel []).getD i 0

theorem bytesToInt16_length : ∀ l : List ℕ, (bytesToInt16 l).length = l.length / 2
  | [] => rfl
  | [_] => by simp [bytesToInt16]
  | _ :: _ :: rest => by
      simp only [bytesToInt16, List.length_cons, bytesToInt16_length rest]
      omega

theorem bytesToInt16_getD : ∀ (l : List ℕ) (k : ℕ), 2 * k + 1 < l.length →
    (bytesToInt16 l).getD k 0 = toInt16 (l.getD (2 * k) 0) (l.getD (2 * k + 1) 0)
  | [], _, h => by simp at h
  | [_], k, h => by simp at h
  | lo :: hi :: rest, 0, _ => by simp [bytesToInt16]
  | lo :: hi :: rest, k + 1, h => by
      have hlt : 2 * k + 1 < rest.length := by
        simp only [List.length_cons] at h; omega
      have ih := bytesToInt16_getD rest k hlt
      have h2 : 2 * (k + 1) = (2 * k + 1) + 1 := by omega
      have h3 : 2 * (k + 1) + 1 = (2 * k + 1) + 1 + 1 := by omega
      simp only [bytesToInt16, List.getD_cons_succ, ih, h2, h3]

theorem toInt16_lower (lo hi : ℕ) : -32768 ≤ toInt16 lo hi := by
  by_cases h : lo + 256 * hi < 32768 <;> simp [toInt16, h] <;> omega

theorem toInt16_upper (lo hi : ℕ) (hlo : lo < 256) (hhi : hi < 256) :
    toInt16 lo hi ≤ 32767 := by
  by_cases h : lo + 256 * hi < 32768 <;> simp [toInt16, h] <;> omega

theorem getD_lt_256 (l : List ℕ) (hb : ∀ b ∈ l, b < 256) (k : ℕ) :
    l.getD k 0 < 256 := by
  by_cases hk : k < l.length
  · rw [List.getD_eq_getElem l 0 hk]
    exact hb _ (l.getElem_mem hk)
  · rw [List.getD_eq_default l 0 (by omega)]
    omega

theorem getD_range_map {β : Type} (f : ℕ → β) (n k : ℕ) (d : β) (hk : k < n) :
    ((List.range n).map f).getD k d = f k := by
  rw [List.getD_eq_getElem _ _ (by simpa using hk)]
  simp

theorem interleaved_index_bound (i c ch m : ℕ) (hch : ch < c) (hi : i < m / c) :
    i * c + ch < m :=
  calc i * c + ch < i * c + c := by omega
    _ = (i + 1) * c := by ring
    _ ≤ m / c * c := Nat.mul_le_mul_right c hi
    _ ≤ m := Nat.div_mul_le_self m c

theorem sample_div_bounds (v : ℤ) (h1 : -32768 ≤ v) (h2 : v ≤ 32767) :
    -1 ≤ (v : ℚ) / 32768 ∧ (v : ℚ) / 32768 ≤ 1 := by
  constructor
  · rw [le_div_iff₀ (by norm_num : (0 : ℚ) < 32768)]
    have : (-32768 : ℚ) ≤ (v : ℚ) := by exact_mod_cast h1
    linarith
  · rw [div_le_one (by norm_num : (0 : ℚ) < 32768)]
    have : (v : ℚ) ≤ 32767 := by exact_mod_cast h2
    linarith

/-- Under the hypotheses the claims quantify over, `decodeAudioData`
reduces to an explicit successful buffer. -/
theorem decodeAudioData_eq_ok (data : List ℕ) (sr : ℚ) (c : ℕ)
    (h2 : data.length % 2 = 0) (hf : 1 ≤ data.length / 2 / c) :
    decodeAudioData data sr c = Except.ok
      { numberOfChannels := c
        length := data.length / 2 / c
        sampleRate := sr
        channelData := (List.range c).map (fun channel =>
          (List.range (data.length / 2 / c)).map (fun i =>
            (((bytesToInt16 data).getD (i * c + channel) 0 : ℤ) : ℚ) / 32768)) } := by
  have hlen := bytesToInt16_length data
  simp only [decodeAudioData, h2, hlen]
  rw [if_neg (by omega), if_neg (by omega)]

/-- Sample access into the buffer `decodeAudioData` builds. -/
theorem sampleAt_decode (data : List ℕ) (sr : ℚ) (c ch i : ℕ)
    (hch : ch < c) (hi : i < data.length / 2 / c) :
    sampleAt
      { numberOfChannels := c
        length := data.length / 2 / c
        sampleRate := sr
        channelData := (List.range c).map (fun channel =>
          (List.range (data.length / 2 / c)).map (fun j =>
            (((bytesToInt16 data).getD (j * c + channel) 0 : ℤ) : ℚ) / 32768)) }
      ch i =
    (((bytesToInt16 data).getD (i * c + ch) 0 : ℤ) : ℚ) / 32768 := by
  unfold sampleAt
  rw [getD_range_map _ _ _ _ hch, getD_range_map _ _ _ _ hi]

/-- C1 (amended): for every byte stream of even length and channel count
`c` with at least one complete frame, `decodeAudioData` produces a buffer
whose frame count is `⌊byteLength/2/c⌋` — equal to `byteLength/2/c`
exactly when `c` divides the sample count — where sample `i` of channel
`ch` is the little-endian signed 16-bit integer read from byte pair
`i*c+ch` divided by 32768, and every produced sample lies in [-1, 1]. -/
theorem decodeAudioData_even_stream_spec :
    ∀ (data : List ℕ) (c : ℕ) (sr : ℚ),
      data.length % 2 = 0 →
      (∀ b ∈ data, b < 256) →
      1 ≤ data.length / 2 / c →
      ∃ buf : DecodedBuffer,
        decodeAudioData data sr c = Except.ok buf ∧
        buf.length = data.length / 2 / c ∧
        (c ∣ data.length / 2 → (buf.length : ℚ) = (data.length : ℚ) / 2 / c) ∧
        (∀ ch, ch < c → ∀ i, i < buf.length →
          sampleAt buf ch i =
            ((toInt16 (data.getD (2 * (i * c + ch)) 0)
                (data.getD (2 * (i * c + ch) + 1) 0) : ℤ) : ℚ) / 32768) ∧
        (∀ ch, ch < c → ∀ i, i < buf.length →
          -1 ≤ sampleAt buf ch i ∧ sampleAt buf ch i ≤ 1) := by
  intro data c sr h2 hb hf
  have hc : c ≠ 0 := by
    rintro rfl; simp at hf
  refine ⟨_, decodeAudioData_eq_ok data sr c h2 hf, rfl, ?_, ?_, ?_⟩
  · intro hdvd
    have h2d : (2 : ℕ) ∣ data.length := Nat.dvd_of_mod_eq_zero h2
    rw [Nat.cast_div hdvd (by exact_mod_cast hc), Nat.cast_div h2d (by norm_num)]
    norm_num
  · intro ch hch i hi
    rw [sampleAt_decode data sr c ch i hch hi]
    have hidx : i * c + ch < data.length / 2 := by
      have := interleaved_index_bound i c ch (data.length / 2) hch hi
      exact this
    have hpair : 2 * (i * c + ch) + 1 < data.length := by omega
    rw [bytesToInt16_getD data (i * c + ch) hpair]
  · intro ch hch i hi
    rw [sampleAt_decode data sr c ch i hch hi]
    have hidx : i * c + ch < data.length / 2 :=
      interleaved_index_bound i c ch (data.length / 2) hch hi
    have hpair : 2 * (i * c + ch) + 1 < data.length := by omega
    rw [bytesToInt16_getD data (i * c + ch) hpair]
    exact sample_div_bounds _
      (toInt16_lower _ _)
      (toInt16_upper _ _ (getD_lt_256 data hb _) (getD_lt_256 data hb _))

instance {ε α : Type} [DecidableEq ε] [DecidableEq α] : DecidableEq (Except ε α) :=
  fun x y =>
    match x, y with
    | Except.error a, Except.error b => decidable_of_iff (a = b) (by simp)
    | Except.ok a, Except.ok b => decidable_of_iff (a = b) (by simp)
    | Except.error _, Except.ok _ => Decidable.isFalse (by simp)
    | Except.ok _, Except.error _ => Decidable.isFalse (by simp)

/-- C1 counterexample: a 6-byte stream with 2 channels is decoded into a
buffer of frame count 1, not `byteLength/2/c = 3/2` as the claim, read over
all even-length streams, requires. -/
theorem decodeAudioData_frameCount_counterexample :
    Except.map DecodedBuffer.length (decodeAudioData [0, 0, 0, 0, 0, 0] 24000 2) =
      Except.ok 1 ∧
    ¬ ((1 : ℚ) = (6 : ℚ) / 2 / 2) := by
  constructor
  · decide
  · norm_num

/-- Witness for `decodeAudioData_even_stream_spec` at the concrete
4-byte mono stream `[0, 128, 255, 127]` (samples -32768 and 32767). -/
theorem decodeAudioData_even_stream_spec_witness :
    ([0, 128, 255, 127] : List ℕ).length % 2 = 0 ∧
    (∀ b ∈ ([0, 128, 255, 127] : List ℕ), b < 256) ∧
    1 ≤ ([0, 128, 255, 127] : List ℕ).length / 2 / 1 ∧
    (∃ buf : DecodedBuffer,
      decodeAudioData [0, 128, 255, 127] 24000 1 = Except.ok buf ∧
      buf.length = ([0, 128, 255, 127] : List ℕ).length / 2 / 1 ∧
      (1 ∣ ([0, 128, 255, 127] : List ℕ).length / 2 →
        (buf.length : ℚ) = (([0, 128, 255, 127] : List ℕ).length : ℚ) / 2 / 1) ∧
      (∀ ch, ch < 1 → ∀ i, i < buf.length →
        sampleAt buf ch i =
          ((toInt16 (([0, 128, 255, 127] : List ℕ).getD (2 * (i * 1 + ch)) 0)
              (([0, 128, 255, 127] : List ℕ).getD (2 * (i * 1 + ch) + 1) 0) : ℤ) : ℚ) / 32768) ∧
      (∀ ch, ch < 1 → ∀ i, i < buf.length →
        -1 ≤ sampleAt buf ch i ∧ sampleAt buf ch i ≤ 1)) :=
  ⟨by decide, by decide, by decide,
   decodeAudioData_even_stream_spec [0, 128, 255, 127] 1 24000
     (by decide) (by decide) (by decide)⟩

/-- C5 (amended): an odd byte length fails hard (the `Int16Array`
construction throws), and a buffer is never produced with zero frames;
but an even byte length that is not a multiple of `2*channels` does NOT
fail: the decoder silently truncates the final partial frame, producing
`⌊byteLength/2/c⌋` frames covering strictly fewer than `byteLength` bytes. -/
theorem decode_malformed_stream :
    ∀ (data : List ℕ) (c : ℕ) (sr : ℚ),
      (data.length % 2 = 1 →
        decodeAudioData data sr c =
          Except.error "RangeError: byte length of Int16Array should be a multiple of 2") ∧
      (data.length % 2 = 0 → 1 ≤ data.length / 2 / c → ¬ (2 * c ∣ data.length) →
        ∃ buf : DecodedBuffer,
          decodeAudioData data sr c = Except.ok buf ∧
          buf.length = data.length / 2 / c ∧
          buf.length * (2 * c) < data.length) := by
  intro data c sr
  constructor
  · intro h
    unfold decodeAudioData
    rw [if_pos (by omega)]
  · intro h2 hf hnd
    refine ⟨_, decodeAudioData_eq_ok data sr c h2 hf, rfl, ?_⟩
    have key : data.length / 2 / c * (2 * c) ≤ data.length := by
      have h1 : data.length / 2 / c * c ≤ data.length / 2 := Nat.div_mul_le_self _ c
      calc data.length / 2 / c * (2 * c) = data.length / 2 / c * c * 2 := by ring
        _ ≤ data.length / 2 * 2 := by omega
        _ ≤ data.length := by omega
    refine Nat.lt_of_le_of_ne key ?_
    intro heq
    have heq' : data.length / 2 / c * (2 * c) = data.length := heq
    refine hnd ⟨data.length / 2 / c, ?_⟩
    conv_lhs => rw [← heq']
    ring

/-- C5 counterexample: 6 bytes with 2 channels — not a multiple of
`2*channels = 4` — decodes successfully (silent truncation of the final
partial frame) instead of failing with a hard error. -/
theorem decode_silent_truncation_counterexample :
    (6 : ℕ) % (2 * 2) ≠ 0 ∧
    Except.map DecodedBuffer.length (decodeAudioData [0, 0, 0, 0, 0, 0] 24000 2) =
      Except.ok 1 := by
  constructor
  · decide
  · decide

/-- Witness for `decode_malformed_stream`: the odd-length branch at `[0]`
and the silent-truncation branch at a 6-byte stream with 2 channels. -/
theorem decode_malformed_stream_witness :
    (([0] : List ℕ).length % 2 = 1 ∧
      decodeAudioData [0] 24000 1 =
        Except.error "RangeError: byte length of Int16Array should be a multiple of 2") ∧
    (([0, 0, 0, 0, 0, 0] : List ℕ).length % 2 = 0 ∧
      1 ≤ ([0, 0, 0, 0, 0, 0] : List ℕ).length / 2 / 2 ∧
      ¬ (2 * 2 ∣ ([0, 0, 0, 0, 0, 0] : List ℕ).length) ∧
      ∃ buf : DecodedBuffer,
        decodeAudioData [0, 0, 0, 0, 0, 0] 24000 2 = Except.ok buf ∧
        buf.length = ([0, 0, 0, 0, 0, 0] : List ℕ).length / 2 / 2 ∧
        buf.length * (2 * 2) < ([0, 0, 0, 0, 0, 0] : List ℕ).length) :=
  ⟨⟨by decide, (decode_malformed_stream [0] 1 24000).1 (by decide)⟩,
   ⟨by decide, by decide, by decide,
    (decode_malformed_stream [0, 0, 0, 0, 0, 0] 2 24000).2
      (by decide) (by decide) (by decide)⟩⟩

/-! ## VoicePlayer playback engine

The component's refs and React state are collected into one record; the
wall clock (`audioContext.currentTime`) is passed to each handler as
`now`.  Where a handler awaits a decode, the decode's outcome is passed
in as an `Option DecodedBuffer`.  Each handler returns the new state
together with the list of values it reported through the
`onProgressUpdate` callback. -/

structure PlayerState where
  base64Audio : Option String
  isPlaying : Bool
  progress : ℚ
  playbackSpeed : ℚ
  currentTimeDisplay : String
  durationDisplay : String
  sourceNode : Option Unit
  audioBuffer : Option DecodedBuffer
  startTime : ℚ
  offset : ℚ
  pendingFrame : Option Unit
deriving DecidableEq

/-- The true playback position of a playing state: `offsetRef.current +
(now - startTimeRef.current) * playbackSpeed`, the expression the source
recomputes in `handleTogglePlay`, `handleSkip`, `updateProgress` and
`onended`. -/
def truePosition (st : PlayerState) (now : ℚ) : ℚ :=
  st.offset + (now - st.startTime) * st.playbackSpeed

/-- JavaScript's truncating conversion used by the `%` remainder. -/
def jsTruncQ (q : ℚ) : ℤ :=
  if 0 ≤ q then ⌊q⌋ else ⌈q⌉

/-- JavaScript's `%` remainder on numbers. -/
def jsMod (a b : ℚ) : ℚ :=
  a - b * (jsTruncQ (a / b) : ℚ)

/-- `String.padStart(2, '0')`. -/
def padStart2 (s : String) : String :=
  String.mk (List.replicate (2 - s.length) (Char.ofNat 48)) ++ s

/-- `formatTime`: minutes and zero-padded seconds.  The `isNaN` branch of
the source is unreachable in this model (ℚ has no NaN; it only arises in
the source before a buffer is loaded). -/
def formatTime (seconds : ℚ) : String :=
  let mins : ℤ := ⌊seconds / 60⌋
  let secs : ℤ := ⌊jsMod seconds 60⌋
  toString mins ++ ":" ++ padStart2 (toString secs)

/-- `stopAudio(resetOffset)`: stops and clears the source node, cancels
the pending animation frame, clears `isPlaying`, and if `resetOffset`
also zeroes progress/offset/time display and reports progress 0. -/
def stopAudio (st : PlayerState) (resetOffset : Bool) : PlayerState × List ℚ :=
  let st1 := { st with sourceNode := none, pendingFrame := none, isPlaying := false }
  if resetOffset then
    ({ st1 with progress := 0, offset := 0, currentTimeDisplay := "0:00" }, [0])
  else
    (st1, [])

/-- `loadAudio`: decodes the current `base64Audio` into the buffer cache
and sets the duration display; a decode failure is logged only.  The
decode outcome is the `decoded` parameter. -/
def loadAudio (st : PlayerState) (decoded : Option DecodedBuffer) : PlayerState :=
  if st.base64Audio = none then st
  else
    match decoded with
    | some buffer =>
        { st with audioBuffer := some buffer,
                  durationDisplay := formatTime buffer.duration }
    | none => st

/-- `playFromOffset(startOffset)`: returns early without audio, lazily
loads the buffer if uncached, clamps the offset to `[0, duration]`, swaps
in a fresh source node, records `startTime := now`, sets `isPlaying` and
schedules the reporter frame. -/
def playFromOffset (st0 : PlayerState) (decoded : Option DecodedBuffer)
    (startOffset now : ℚ) : PlayerState :=
  if st0.base64Audio = none then st0
  else
    let st := if st0.audioBuffer = none then loadAudio st0 decoded else st0
    match st.audioBuffer with
    | none => st
    | some buffer =>
        let duration := buffer.duration
        let clampedOffset := max 0 (min startOffset duration)
        { st with offset := clampedOffset, sourceNode := some (),
                  startTime := now, isPlaying := true, pendingFrame := some () }

/-- `handleTogglePlay`: while playing, freeze the true position into
`offsetRef` and `stopAudio(false)`; otherwise `playFromOffset(offsetRef)`. -/
def handleTogglePlay (st : PlayerState) (decoded : Option DecodedBuffer)
    (now : ℚ) : PlayerState × List ℚ :=
  if st.isPlaying then
    let st1 := { st with offset := st.offset + (now - st.startTime) * st.playbackSpeed }
    stopAudio st1 false
  else
    (playFromOffset st decoded st.offset now, [])

/-- The `source.onended` callback: if the computed position is within
0.2 s of the closure's `duration`, clear `isPlaying`, set progress 100,
display the full duration and report 100.  (`offsetRef` is NOT written.) -/
def onEnded (st : PlayerState) (duration now : ℚ) : PlayerState × List ℚ :=
  let currentPos := st.offset + (now - st.startTime) * st.playbackSpeed
  if currentPos ≥ duration - 0.2 then
    ({ st with isPlaying := false, progress := 100,
               currentTimeDisplay := formatTime duration }, [100])
  else
    (st, [])

/-- One `updateProgress` reporter tick.  `closureIsPlaying` is the value
of the `isPlaying` state variable captured by the closure at the render
that created it (the guard also requires the audio context, which exists
whenever the loop was scheduled). -/
def updateProgress (closureIsPlaying : Bool) (st : PlayerState)
    (duration now : ℚ) : PlayerState × List ℚ :=
  if closureIsPlaying = false then (st, [])
  else
    let currentPos := st.offset + (now - st.startTime) * st.playbackSpeed
    let newProgress := min (currentPos / duration * 100) 100
    ({ st with progress := newProgress,
               currentTimeDisplay := formatTime (min currentPos duration),
               pendingFrame := if newProgress < 100 then some () else none },
     [newProgress])

/-- The synchronous body of the `useEffect` on `[base64Audio]`:
`stopAudio(true)` then `audioBufferRef.current = null`; the subsequent
`loadAudio()` (when the new value is non-null) is asynchronous and runs
only after this reset completes. -/
def onBase64AudioChanged (st : PlayerState) : PlayerState × List ℚ :=
  let r := stopAudio st true
  ({ r.1 with audioBuffer := none }, r.2)

/-- A two-frame buffer with `duration = 2` seconds. -/
def demoBuffer : DecodedBuffer :=
  { numberOfChannels := 1, length := 2, sampleRate := 1, channelData := [[0, 0]] }

/-- A playing engine state: playback started at wall-clock 0 from offset
0 at speed 1, on `demoBuffer`. -/
def demoPlayingState : PlayerState :=
  { base64Audio := some "AAAA", isPlaying := true, progress := 50,
    playbackSpeed := 1, currentTimeDisplay := "0:01", durationDisplay := "0:02",
    sourceNode := some (), audioBuffer := some demoBuffer,
    startTime := 0, offset := 0, pendingFrame := some () }

/-- A state whose true position (20 s) is far past the 10 s duration used
with it — a tick after the end of the track. -/
def demoOverrunState : PlayerState :=
  { demoPlayingState with offset := 20 }

/-- C3: pausing while playing freezes the computed true position into
`offsetSeconds`, and a subsequent toggle resumes from that same offset
clamped to `[0, duration]`, so when the frozen position lay in range the
true position is exactly continuous (zero jump) across the pause
boundary. -/
theorem pause_play_roundtrip :
    ∀ (st : PlayerState) (buf : DecodedBuffer) (decoded : Option DecodedBuffer)
      (now tResume : ℚ),
      st.isPlaying = true →
      st.base64Audio ≠ none →
      st.audioBuffer = some buf →
      (handleTogglePlay st decoded now).1.isPlaying = false ∧
      (handleTogglePlay st decoded now).1.offset = truePosition st now ∧
      (handleTogglePlay st decoded now).2 = [] ∧
      truePosition
          ((handleTogglePlay (handleTogglePlay st decoded now).1 decoded tResume).1)
          tResume
        = max 0 (min (truePosition st now) buf.duration) ∧
      (0 ≤ truePosition st now → truePosition st now ≤ buf.duration →
        truePosition
            ((handleTogglePlay (handleTogglePlay st decoded now).1 decoded tResume).1)
            tResume
          = truePosition st now) := by
  intro st buf decoded now tResume hplay hb64 hbuf
  have hpause : handleTogglePlay st decoded now =
      ({ st with offset := st.offset + (now - st.startTime) * st.playbackSpeed,
                 sourceNode := none, pendingFrame := none, isPlaying := false }, []) := by
    simp [handleTogglePlay, hplay, stopAudio]
  rw [hpause]
  refine ⟨rfl, rfl, rfl, ?_, ?_⟩
  · simp only [handleTogglePlay, playFromOffset, hbuf, hb64]
    simp [truePosition, hbuf]
  · intro h0 hd
    simp only [handleTogglePlay, playFromOffset, hbuf, hb64]
    simp [truePosition, hbuf]
    rw [min_eq_left (by simpa [truePosition] using hd),
        max_eq_right (by simpa [truePosition] using h0)]

/-- Witness for `pause_play_roundtrip`: pause `demoPlayingState` at
wall-clock 1 (position 1 s of a 2 s buffer) and resume at wall-clock 5. -/
theorem pause_play_roundtrip_witness :
    demoPlayingState.isPlaying = true ∧
    demoPlayingState.base64Audio ≠ none ∧
    demoPlayingState.audioBuffer = some demoBuffer ∧
    ((handleTogglePlay demoPlayingState none 1).1.isPlaying = false ∧
     (handleTogglePlay demoPlayingState none 1).1.offset = truePosition demoPlayingState 1 ∧
     (handleTogglePlay demoPlayingState none 1).2 = [] ∧
     truePosition
         ((handleTogglePlay (handleTogglePlay demoPlayingState none 1).1 none 5).1) 5
       = max 0 (min (truePosition demoPlayingState 1) demoBuffer.duration) ∧
     (0 ≤ truePosition demoPlayingState 1 →
       truePosition demoPlayingState 1 ≤ demoBuffer.duration →
       truePosition
           ((handleTogglePlay (handleTogglePlay demoPlayingState none 1).1 none 5).1) 5
         = truePosition demoPlayingState 1)) :=
  ⟨rfl, by decide, rfl,
   pause_play_roundtrip demoPlayingState demoBuffer none 1 5 rfl (by decide) rfl⟩

/-- C2 (amended): when the output source ends naturally with the computed
position within 0.2 s of the buffer duration, the engine clears
`isPlaying` (Paused), sets progress to 100, displays the full duration
and reports 100 to the listener — but `offsetSeconds` is left at its last
play/seek snapshot; it is NOT set to `duration`.  Below the threshold the
callback is a no-op. -/
theorem onEnded_natural_completion :
    ∀ (st : PlayerState) (duration now : ℚ),
      (st.offset + (now - st.startTime) * st.playbackSpeed ≥ duration - 0.2 →
        onEnded st duration now =
          ({ st with isPlaying := false, progress := 100,
                     currentTimeDisplay := formatTime duration }, [100]) ∧
        (onEnded st duration now).1.offset = st.offset) ∧
      (st.offset + (now - st.startTime) * st.playbackSpeed < duration - 0.2 →
        onEnded st duration now = (st, [])) := by
  intro st duration now
  constructor
  · intro h
    have he : onEnded st duration now =
        ({ st with isPlaying := false, progress := 100,
                   currentTimeDisplay := formatTime duration }, [100]) := by
      simp only [onEnded]
      rw [if_pos h]
    exact ⟨he, by rw [he]⟩
  · intro h
    simp only [onEnded]
    rw [if_neg (not_le.mpr h)]

/-- C2 counterexample: `onended` fires at the exact end of the 2 s demo
buffer (position 2 ≥ 2 - 0.2); the engine pauses and reports 100, but the
resulting `offsetSeconds` is 0 — the snapshot from when play started —
not the duration 2 the claim requires. -/
theorem onEnded_offset_counterexample :
    (onEnded demoPlayingState 2 2).1.isPlaying = false ∧
    (onEnded demoPlayingState 2 2).2 = [100] ∧
    (onEnded demoPlayingState 2 2).1.offset = 0 ∧
    demoPlayingState.audioBuffer = some demoBuffer ∧
    demoBuffer.duration = 2 ∧
    (0 : ℚ) ≠ 2 := by
  have hc : demoPlayingState.offset +
      ((2 : ℚ) - demoPlayingState.startTime) * demoPlayingState.playbackSpeed
      ≥ 2 - 0.2 := by norm_num [demoPlayingState]
  have h : onEnded demoPlayingState 2 2 =
      ({ demoPlayingState with isPlaying := false, progress := 100,
                               currentTimeDisplay := formatTime 2 }, [100]) := by
    simp only [onEnded]
    rw [if_pos hc]
  refine ⟨by rw [h], by rw [h], by rw [h]; rfl, rfl,
    by norm_num [demoBuffer, DecodedBuffer.duration], by norm_num⟩

/-- Witness for `onEnded_natural_completion`: the near-end branch at
wall-clock 2 and the early branch at wall-clock 0. -/
theorem onEnded_natural_completion_witness :
    (demoPlayingState.offset +
        ((2 : ℚ) - demoPlayingState.startTime) * demoPlayingState.playbackSpeed
      ≥ 2 - 0.2) ∧
    onEnded demoPlayingState 2 2 =
      ({ demoPlayingState with isPlaying := false, progress := 100,
                               currentTimeDisplay := formatTime 2 }, [100]) ∧
    (onEnded demoPlayingState 2 2).1.offset = demoPlayingState.offset ∧
    (demoPlayingState.offset +
        ((0 : ℚ) - demoPlayingState.startTime) * demoPlayingState.playbackSpeed
      < 2 - 0.2) ∧
    onEnded demoPlayingState 2 0 = (demoPlayingState, []) :=
  ⟨by norm_num [demoPlayingState],
   ((onEnded_natural_completion demoPlayingState 2 2).1
     (by norm_num [demoPlayingState])).1,
   ((onEnded_natural_completion demoPlayingState 2 2).1
     (by norm_num [demoPlayingState])).2,
   by norm_num [demoPlayingState],
   (onEnded_natural_completion demoPlayingState 2 0).2
     (by norm_num [demoPlayingState])⟩

/-- C8: loading a new `base64Audio` value first unconditionally stops any
in-flight source and cancels any pending reporter frame, resets to
Stopped with offset 0, progress 0 and a zeroed time display, reports 0,
and discards the cached buffer — all before any new decode is started. -/
theorem new_audio_resets_engine :
    ∀ st : PlayerState,
      (onBase64AudioChanged st).1.sourceNode = none ∧
      (onBase64AudioChanged st).1.pendingFrame = none ∧
      (onBase64AudioChanged st).1.isPlaying = false ∧
      (onBase64AudioChanged st).1.offset = 0 ∧
      (onBase64AudioChanged st).1.progress = 0 ∧
      (onBase64AudioChanged st).1.audioBuffer = none ∧
      (onBase64AudioChanged st).1.currentTimeDisplay = "0:00" ∧
      (onBase64AudioChanged st).2 = [0] := by
  intro st
  exact ⟨rfl, rfl, rfl, rfl, rfl, rfl, rfl, rfl⟩

/-- Witness for `new_audio_resets_engine` at the concrete playing state. -/
theorem new_audio_resets_engine_witness :
    (onBase64AudioChanged demoPlayingState).1.sourceNode = none ∧
    (onBase64AudioChanged demoPlayingState).1.pendingFrame = none ∧
    (onBase64AudioChanged demoPlayingState).1.isPlaying = false ∧
    (onBase64AudioChanged demoPlayingState).1.offset = 0 ∧
    (onBase64AudioChanged demoPlayingState).1.progress = 0 ∧
    (onBase64AudioChanged demoPlayingState).1.audioBuffer = none ∧
    (onBase64AudioChanged demoPlayingState).1.currentTimeDisplay = "0:00" ∧
    (onBase64AudioChanged demoPlayingState).2 = [0] :=
  new_audio_resets_engine demoPlayingState

/-- C9 (amended): on a reporter tick whose closure captured a playing
state, the tick computes the true position, derives
`progress = min(position/duration * 100, 100)` — the factor 100 is inside
the `min`, so progress is capped at 100 — reports exactly that value to
the callback, and schedules a further frame precisely when progress < 100. -/
theorem updateProgress_tick :
    ∀ (st : PlayerState) (duration now : ℚ), 0 < duration →
      updateProgress true st duration now =
        ({ st with
            progress :=
              min ((st.offset + (now - st.startTime) * st.playbackSpeed) / duration * 100) 100,
            currentTimeDisplay :=
              formatTime (min (st.offset + (now - st.startTime) * st.playbackSpeed) duration),
            pendingFrame :=
              if min ((st.offset + (now - st.startTime) * st.playbackSpeed) / duration * 100) 100 < 100
              then some () else none },
         [min ((st.offset + (now - st.startTime) * st.playbackSpeed) / duration * 100) 100]) ∧
      min ((st.offset + (now - st.startTime) * st.playbackSpeed) / duration * 100) 100 ≤ 100 ∧
      ((updateProgress true st duration now).1.pendingFrame = some () ↔
        min ((st.offset + (now - st.startTime) * st.playbackSpeed) / duration * 100) 100 < 100) := by
  intro st duration now _
  refine ⟨rfl, min_le_right _ _, ?_⟩
  by_cases h :
      min ((st.offset + (now - st.startTime) * st.playbackSpeed) / duration * 100) 100 < 100
  · simp [updateProgress, h]
  · simp [updateProgress, h]

/-- C9 counterexample: a tick at true position 20 of a 10 s track reports
100 (the code caps `(pos/duration)*100` at 100), whereas the claim's
formula `min(position/duration, 100) * 100` evaluates to 200. -/
theorem updateProgress_formula_counterexample :
    (updateProgress true demoOverrunState 10 0).2 = [100] ∧
    min ((20 : ℚ) / 10) 100 * 100 = 200 ∧
    (100 : ℚ) ≠ 200 ∧
    demoOverrunState.offset +
        ((0 : ℚ) - demoOverrunState.startTime) * demoOverrunState.playbackSpeed = 20 := by
  refine ⟨?_, by norm_num, by norm_num,
    by norm_num [demoOverrunState, demoPlayingState]⟩
  norm_num [updateProgress, demoOverrunState, demoPlayingState, min_def]

/-- Witness for `updateProgress_tick` on the demo playing state at
wall-clock 1 over the 2 s duration. -/
theorem updateProgress_tick_witness :
    (0 : ℚ) < 2 ∧
    (updateProgress true demoPlayingState 2 1).2 =
      [min ((demoPlayingState.offset +
          ((1 : ℚ) - demoPlayingState.startTime) * demoPlayingState.playbackSpeed) / 2 * 100) 100] ∧
    ((updateProgress true demoPlayingState 2 1).1.pendingFrame = some () ↔
      min ((demoPlayingState.offset +
          ((1 : ℚ) - demoPlayingState.startTime) * demoPlayingState.playbackSpeed) / 2 * 100) 100 < 100) :=
  ⟨by norm_num,
   by rw [(updateProgress_tick demoPlayingState 2 1 (by norm_num)).1],
   (updateProgress_tick demoPlayingState 2 1 (by norm_num)).2.2⟩

/-! ## App session controller

The selector state (level/topic/duration) only feeds the prompt text of
the external request and is omitted; the generation request stream is
made explicit so the theorems can speak about which external calls a
trigger issues. -/

inductive AppStatus where
  | IDLE
  | GENERATING_TEXT
  | GENERATING_AUDIO
  | READY
  | ERROR
deriving DecidableEq

structure Participant where
  name : String
  role : String
  voice : String
deriving DecidableEq

structure DialogueTurn where
  speaker : String
  text : String
  persianText : String
  role : String
deriving DecidableEq

structure VocabularyItem where
  word : String
  partOfSpeech : String
  englishMeaning : String
  persianMeaning : String
  isCustom : Bool := false
deriving DecidableEq

structure Scenario where
  id : String
  title : String
  context : String
  participants : List Participant
  dialogue : List DialogueTurn
  vocabulary : List VocabularyItem
deriving DecidableEq

structure SessionState where
  status : AppStatus
  scenario : Option Scenario
  audioData : Option String
  error : Option String
  playbackProgress : ℚ
  isSlowMode : Bool
  isLookingUp : Bool
  customVocab : List VocabularyItem
deriving DecidableEq

/-- An external generation request issued by the controller: a scenario
request, or an audio request for a given scenario and pacing flag. -/
inductive GenRequest where
  | scenarioReq : GenRequest
  | audioReq : Scenario → Bool → GenRequest
deriving DecidableEq

/-- The single generic user-facing failure message. -/
def failureMessage : String := "Failed to create session. Please try again."

/-- `startPractice(overrideSlowMode?)`.  `closureScenario` is the value of
the `scenario` state variable captured by the closure that runs (it can
differ from `st.scenario` when the caller wrote the state in the same
event, as the Generate button does); the outcomes of the two awaited
requests are passed in.  Returns the final state together with the
external requests issued. -/
def startPracticeCore (closureScenario : Option Scenario) (st : SessionState)
    (overrideSlowMode : Option Bool) (scenarioResult : Except Unit Scenario)
    (audioResult : Except Unit String) : SessionState × List GenRequest :=
  let useSlow := overrideSlowMode.getD st.isSlowMode
  let st1 := { st with error := none, audioData := none, playbackProgress := 0 }
  match closureScenario with
  | none =>
      let st2 := { st1 with status := AppStatus.GENERATING_TEXT }
      match scenarioResult with
      | Except.error _ =>
          ({ st2 with error := some failureMessage, status := AppStatus.ERROR },
           [GenRequest.scenarioReq])
      | Except.ok newScenario =>
          let st3 :=
            { st2 with
                scenario := some newScenario
                status := AppStatus.GENERATING_AUDIO }
          match audioResult with
          | Except.error _ =>
              ({ st3 with error := some failureMessage, status := AppStatus.ERROR },
               [GenRequest.scenarioReq, GenRequest.audioReq newScenario useSlow])
          | Except.ok audio =>
              ({ st3 with audioData := some audio, status := AppStatus.READY },
               [GenRequest.scenarioReq, GenRequest.audioReq newScenario useSlow])
  | some sc =>
      let st2 := { st1 with status := AppStatus.GENERATING_AUDIO }
      match audioResult with
      | Except.error _ =>
          ({ st2 with error := some failureMessage, status := AppStatus.ERROR },
           [GenRequest.audioReq sc useSlow])
      | Except.ok audio =>
          ({ st2 with audioData := some audio, status := AppStatus.READY },
           [GenRequest.audioReq sc useSlow])

/-- `startPractice` as invoked where the closure's `scenario` agrees with
the current state. -/
def startPractice (st : SessionState) (overrideSlowMode : Option Bool)
    (scenarioResult : Except Unit Scenario) (audioResult : Except Unit String) :
    SessionState × List GenRequest :=
  startPracticeCore st.scenario st overrideSlowMode scenarioResult audioResult

/-- The header Generate button:
`disabled={status === GENERATING_TEXT || status === GENERATING_AUDIO}`;
when enabled its `onClick` runs `setScenario(null); startPractice()` —
the `startPractice` closure still sees the pre-click `scenario` value. -/
def clickGenerateButton (st : SessionState) (scenarioResult : Except Unit Scenario)
    (audioResult : Except Unit String) : SessionState × List GenRequest :=
  if st.status = AppStatus.GENERATING_TEXT ∨ st.status = AppStatus.GENERATING_AUDIO then
    (st, [])
  else
    startPracticeCore st.scenario { st with scenario := none } none
      scenarioResult audioResult

/-- `toggleSlowMode` (the LITE-voices button inside `VoicePlayer`,
rendered whenever a scenario exists and never disabled): flips the flag
and, when a scenario exists, re-runs `startPractice` with the new flag. -/
def toggleSlowMode (st : SessionState) (scenarioResult : Except Unit Scenario)
    (audioResult : Except Unit String) : SessionState × List GenRequest :=
  let next := !st.isSlowMode
  let st1 := { st with isSlowMode := next }
  match st1.scenario with
  | some _ => startPractice st1 (some next) scenarioResult audioResult
  | none => (st1, [])

/-- A small concrete scenario. -/
def demoScenario : Scenario :=
  { id := "s1", title := "T", context := "C", participants := [],
    dialogue := [{ speaker := "A", text := "hello", persianText := "p", role := "host" }],
    vocabulary := [] }

/-- The idle state before any session has been started. -/
def idleSessionState : SessionState :=
  { status := AppStatus.IDLE, scenario := none, audioData := none,
    error := none, playbackProgress := 0, isSlowMode := false,
    isLookingUp := false, customVocab := [] }

/-- A session that is currently generating audio for `demoScenario`. -/
def generatingAudioState : SessionState :=
  { idleSessionState with status := AppStatus.GENERATING_AUDIO,
                          scenario := some demoScenario }

/-- C6 (amended): any failed generation request drives the controller to
Error with the single generic message and no audio from the failed
attempt; a failed scenario request retains no scenario, and when only
audio is regenerated a prior scenario stays visible — but when a fresh
attempt's scenario request succeeds and its audio request then fails, the
newly generated scenario from that failed attempt IS retained. -/
theorem startPractice_failure_handling :
    ∀ (st : SessionState) (ov : Option Bool) (s : Scenario)
      (r1 : Except Unit Scenario) (r2 : Except Unit String),
      (st.scenario = none →
        (startPractice st ov (Except.error ()) r2).1.status = AppStatus.ERROR ∧
        (startPractice st ov (Except.error ()) r2).1.error = some failureMessage ∧
        (startPractice st ov (Except.error ()) r2).1.scenario = none ∧
        (startPractice st ov (Except.error ()) r2).1.audioData = none) ∧
      (st.scenario = none →
        (startPractice st ov (Except.ok s) (Except.error ())).1.status = AppStatus.ERROR ∧
        (startPractice st ov (Except.ok s) (Except.error ())).1.error = some failureMessage ∧
        (startPractice st ov (Except.ok s) (Except.error ())).1.audioData = none ∧
        (startPractice st ov (Except.ok s) (Except.error ())).1.scenario = some s) ∧
      (st.scenario = some s →
        (startPractice st ov r1 (Except.error ())).1.status = AppStatus.ERROR ∧
        (startPractice st ov r1 (Except.error ())).1.error = some failureMessage ∧
        (startPractice st ov r1 (Except.error ())).1.audioData = none ∧
        (startPractice st ov r1 (Except.error ())).1.scenario = some s) := by
  intro st ov s r1 r2
  refine ⟨?_, ?_, ?_⟩ <;> intro h <;>
    simp [startPractice, startPracticeCore, h]

/-- C6 counterexample: starting fresh from the idle state, the scenario
request succeeds and the audio request fails; the controller ends in
Error, yet the scenario produced inside this failed attempt is retained
(the state had no prior scenario). -/
theorem startPractice_retains_failed_attempt_scenario :
    idleSessionState.scenario = none ∧
    (startPractice idleSessionState none (Except.ok demoScenario)
        (Except.error ())).1.status = AppStatus.ERROR ∧
    (startPractice idleSessionState none (Except.ok demoScenario)
        (Except.error ())).1.scenario = some demoScenario := by
  refine ⟨rfl, ?_, ?_⟩ <;> decide

/-- Witness for `startPractice_failure_handling`: the three branches at
concrete states — a failed scenario request from idle, a fresh attempt
whose audio request fails, and a failed audio regeneration over an
existing scenario. -/
theorem startPractice_failure_handling_witness :
    (idleSessionState.scenario = none ∧
      (startPractice idleSessionState none (Except.error ()) (Except.ok "a")).1.status
        = AppStatus.ERROR ∧
      (startPractice idleSessionState none (Except.error ()) (Except.ok "a")).1.error
        = some failureMessage ∧
      (startPractice idleSessionState none (Except.error ()) (Except.ok "a")).1.scenario
        = none ∧
      (startPractice idleSessionState none (Except.error ()) (Except.ok "a")).1.audioData
        = none) ∧
    (generatingAudioState.scenario = some demoScenario ∧
      (startPractice generatingAudioState none (Except.ok demoScenario)
          (Except.error ())).1.status = AppStatus.ERROR ∧
      (startPractice generatingAudioState none (Except.ok demoScenario)
          (Except.error ())).1.error = some failureMessage ∧
      (startPractice generatingAudioState none (Except.ok demoScenario)
          (Except.error ())).1.audioData = none ∧
      (startPractice generatingAudioState none (Except.ok demoScenario)
          (Except.error ())).1.scenario = some demoScenario) :=
  ⟨⟨rfl,
    ((startPractice_failure_handling idleSessionState none demoScenario
        (Except.error ()) (Except.ok "a")).1 rfl).1,
    ((startPractice_failure_handling idleSessionState none demoScenario
        (Except.error ()) (Except.ok "a")).1 rfl).2.1,
    ((startPractice_failure_handling idleSessionState none demoScenario
        (Except.error ()) (Except.ok "a")).1 rfl).2.2.1,
    ((startPractice_failure_handling idleSessionState none demoScenario
        (Except.error ()) (Except.ok "a")).1 rfl).2.2.2⟩,
   ⟨rfl,
    ((startPractice_failure_handling generatingAudioState none demoScenario
        (Except.ok demoScenario) (Except.ok "a")).2.2 rfl).1,
    ((startPractice_failure_handling generatingAudioState none demoScenario
        (Except.ok demoScenario) (Except.ok "a")).2.2 rfl).2.1,
    ((startPractice_failure_handling generatingAudioState none demoScenario
        (Except.ok demoScenario) (Except.ok "a")).2.2 rfl).2.2.1,
    ((startPractice_failure_handling generatingAudioState none demoScenario
        (Except.ok demoScenario) (Except.ok "a")).2.2 rfl).2.2.2⟩⟩

/-- C7 (amended): triggering generation through the Generate button while
the session is in GeneratingText or GeneratingAudio is rejected — the
button is disabled, so the state is unchanged and no request is issued.
(The slow-mode refresh trigger is not guarded this way; see the
counterexample.) -/
theorem generate_button_rejected_while_generating :
    ∀ (st : SessionState) (r1 : Except Unit Scenario) (r2 : Except Unit String),
      (st.status = AppStatus.GENERATING_TEXT ∨ st.status = AppStatus.GENERATING_AUDIO) →
      clickGenerateButton st r1 r2 = (st, []) := by
  intro st r1 r2 h
  unfold clickGenerateButton
  rw [if_pos h]

/-- C7 counterexample: while the session is in GeneratingAudio, the
slow-mode refresh trigger (enabled because a scenario exists) is NOT
rejected — it changes the state and issues a fresh audio-generation
request, so a second pipeline can be put in flight. -/
theorem slow_mode_trigger_not_rejected :
    generatingAudioState.status = AppStatus.GENERATING_AUDIO ∧
    (toggleSlowMode generatingAudioState (Except.error ()) (Except.ok "aud")).2
      = [GenRequest.audioReq demoScenario true] ∧
    (toggleSlowMode generatingAudioState (Except.error ()) (Except.ok "aud")).1
      ≠ generatingAudioState := by
  refine ⟨rfl, by decide, by decide⟩

/-- Witness for `generate_button_rejected_while_generating` at the
concrete GeneratingAudio state. -/
theorem generate_button_rejected_while_generating_witness :
    (generatingAudioState.status = AppStatus.GENERATING_TEXT ∨
      generatingAudioState.status = AppStatus.GENERATING_AUDIO) ∧
    clickGenerateButton generatingAudioState (Except.error ()) (Except.error ())
      = (generatingAudioState, []) :=
  ⟨Or.inr rfl,
   generate_button_rejected_while_generating generatingAudioState
     (Except.error ()) (Except.error ()) (Or.inr rfl)⟩

/-! ## Word lookup (`handleWordClick`) -/

/-- The character codes removed by the punctuation-stripping regular
expression in `handleWordClick`: . , / # ! $ % ^ & * ; : braces = - _
backquote ~ ( ). -/
def punctuationCodes : List ℕ :=
  [46, 44, 47, 35, 33, 36, 37, 94, 38, 42, 59, 58, 123, 125, 61, 45, 95, 96, 126, 40, 41]

/-- The `cleanWord` computed by `handleWordClick`: the clicked word with
every punctuation character removed (global replace with ""). -/
def cleanWord (word : String) : String :=
  String.mk (word.data.filter (fun ch => !(punctuationCodes.contains ch.toNat)))

/-- The synchronous guard phase of `handleWordClick`: returns early when a
lookup is in flight or the stripped word is empty; otherwise sets the
busy flag and issues the lookup request (returned as `some (word, ctx)`). -/
def handleWordClick (st : SessionState) (word contextText : String) :
    SessionState × Option (String × String) :=
  let cw := cleanWord word
  if st.isLookingUp = true ∨ cw = "" then (st, none)
  else ({ st with isLookingUp := true }, some (cw, contextText))

/-- Completion of a word lookup: on success prepend the definition
(marked custom) unless a case-insensitive duplicate exists; failures are
logged only; the busy flag is always cleared. -/
def handleWordLookupResult (st : SessionState) (cw : String)
    (result : Except Unit VocabularyItem) : SessionState :=
  let st1 :=
    match result with
    | Except.ok d =>
        if (st.customVocab.find? (fun (v : VocabularyItem) => v.word.toLower == cw.toLower)).isSome then st
        else { st with customVocab := { d with isCustom := true } :: st.customVocab }
    | Except.error _ => st
  { st1 with isLookingUp := false }

/-- C10: a clicked word that strips to the empty string makes the handler
return before issuing any lookup request, leaving the whole session state
(custom vocabulary and busy flag included) unchanged. -/
theorem handleWordClick_empty_after_strip :
    ∀ (st : SessionState) (word contextText : String),
      cleanWord word = "" →
      handleWordClick st word contextText = (st, none) := by
  intro st word contextText h
  simp [handleWordClick, h]

/-- Witness for `handleWordClick_empty_after_strip` at the
punctuation-only token "...". -/
theorem handleWordClick_empty_after_strip_witness :
    cleanWord "..." = "" ∧
    handleWordClick idleSessionState "..." "some context" = (idleSessionState, none) :=
  ⟨by decide,
   handleWordClick_empty_after_strip idleSessionState "..." "some context" (by decide)⟩

/-! ## Turn synchronizer (`activeTurnIndex`) -/

/-- The loop body of the `activeTurnIndex` memo: walk the dialogue with a
running character counter and a running index, returning the first turn
whose progress sub-range contains `q`, else -1. -/
def activeTurnLoop : List DialogueTurn → ℚ → ℚ → ℚ → ℤ → ℤ
  | [], _, _, _, _ => -1
  | turn :: rest, totalChars, charCounter, q, i =>
      let turnChars : ℚ := (turn.text.length : ℚ)
      if q ≥ charCounter / totalChars ∧ q < (charCounter + turnChars) / totalChars then i
      else activeTurnLoop rest totalChars (charCounter + turnChars) q (i + 1)

/-- `activeTurnIndex` from `App`: -1 when there is no scenario, when
progress is 0, or when progress ≥ 99.5; otherwise the walk above over the
dialogue with `totalChars` the summed English text lengths and
`q = progress/100`.  (When every text is empty the source divides by
zero, every NaN comparison is false and the walk returns -1; here ℚ
division by zero is 0, the strict upper comparison is false, and the walk
returns -1 as well.) -/
def activeTurnIndex (scenario : Option Scenario) (playbackProgress : ℚ) : ℤ :=
  match scenario with
  | none => -1
  | some sc =>
      if playbackProgress = 0 ∨ playbackProgress ≥ 99.5 then -1
      else
        let totalChars : ℚ := sc.dialogue.foldl (fun acc turn => acc + (turn.text.length : ℚ)) 0
        activeTurnLoop sc.dialogue totalChars 0 (playbackProgress / 100) 0

/-- The per-turn English text lengths. -/
def turnLengths (dialogue : List DialogueTurn) : List ℚ :=
  dialogue.map (fun turn => (turn.text.length : ℚ))

/-- The summed English text length of the dialogue. -/
def totalTextChars (dialogue : List DialogueTurn) : ℚ :=
  (turnLengths dialogue).sum

/-- The cumulative character count before turn `i`. -/
def cumCharsBefore (dialogue : List DialogueTurn) (i : ℕ) : ℚ :=
  ((turnLengths dialogue).take i).sum

/-- Modelled from the spec: turn `i`, at cumulative offset `c_i` with
length `L_i`, owns the progress sub-range `[c_i/totalChars,
(c_i+L_i)/totalChars)`; this predicate says that sub-range contains `q`. -/
def ownsProgressRange (dialogue : List DialogueTurn) (i : ℕ) (q : ℚ) : Prop :=
  cumCharsBefore dialogue i / totalTextChars dialogue ≤ q ∧
  q < (cumCharsBefore dialogue i + (turnLengths dialogue).getD i 0) / totalTextChars dialogue

/-- Modelled from the spec: walk the turns accumulating a running
character offset and return the first turn whose sub-range contains `q`
(`none` when no turn's sub-range does). -/
def firstOwnedTurn : List DialogueTurn → ℚ → ℚ → ℚ → Option ℕ
  | [], _, _, _ => none
  | turn :: rest, totalChars, charOffset, q =>
      let turnChars : ℚ := (turn.text.length : ℚ)
      if charOffset / totalChars ≤ q ∧ q < (charOffset + turnChars) / totalChars then some 0
      else (firstOwnedTurn rest totalChars (charOffset + turnChars) q).map (fun k => k + 1)

theorem foldl_textLen : ∀ (l : List DialogueTurn) (a : ℚ),
    l.foldl (fun acc turn => acc + (turn.text.length : ℚ)) a = a + totalTextChars l
  | [], a => by simp [totalTextChars, turnLengths]
  | t :: rest, a => by
      simp only [List.foldl_cons, foldl_textLen rest, totalTextChars, turnLengths,
        List.map_cons, List.sum_cons]
      ring

theorem activeTurnLoop_eq_firstOwned :
    ∀ (turns : List DialogueTurn) (T c q : ℚ) (i : ℤ),
      activeTurnLoop turns T c q i =
        (match firstOwnedTurn turns T c q with
         | some k => i + (k : ℤ)
         | none => -1)
  | [], _, _, _, _ => rfl
  | t :: rest, T, c, q, i => by
      simp only [activeTurnLoop, firstOwnedTurn, ge_iff_le]
      by_cases h : c / T ≤ q ∧ q < (c + (t.text.length : ℚ)) / T
      · simp [h]
      · rw [if_neg h, if_neg h,
          activeTurnLoop_eq_firstOwned rest T (c + (t.text.length : ℚ)) q (i + 1)]
        cases hF : firstOwnedTurn rest T (c + (t.text.length : ℚ)) q with
        | none => simp
        | some k => simp; ring

theorem firstOwnedTurn_some_spec :
    ∀ (turns : List DialogueTurn) (T c q : ℚ) (i : ℕ),
      firstOwnedTurn turns T c q = some i →
      (((c + ((turnLengths turns).take i).sum) / T ≤ q ∧
        q < (c + ((turnLengths turns).take i).sum + (turnLengths turns).getD i 0) / T) ∧
       ∀ j, j < i →
         ¬ ((c + ((turnLengths turns).take j).sum) / T ≤ q ∧
            q < (c + ((turnLengths turns).take j).sum + (turnLengths turns).getD j 0) / T))
  | [], T, c, q, i => by intro h; simp [firstOwnedTurn] at h
  | t :: rest, T, c, q, i => by
      intro h
      simp only [firstOwnedTurn] at h
      by_cases hc : c / T ≤ q ∧ q < (c + (t.text.length : ℚ)) / T
      · rw [if_pos hc] at h
        have hi0 : i = 0 := by
          cases h; rfl
        subst hi0
        refine ⟨?_, ?_⟩
        · simpa [turnLengths] using hc
        · intro j hj; omega
      · rw [if_neg hc] at h
        rcases Option.map_eq_some'.mp h with ⟨k, hk, hik⟩
        subst hik
        obtain ⟨howns, hmin⟩ :=
          firstOwnedTurn_some_spec rest T (c + (t.text.length : ℚ)) q k hk
        have etake : ∀ j : ℕ,
            ((turnLengths (t :: rest)).take (j + 1)).sum =
              (t.text.length : ℚ) + ((turnLengths rest).take j).sum := by
          intro j; simp [turnLengths]
        have egetD : ∀ j : ℕ,
            (turnLengths (t :: rest)).getD (j + 1) 0 = (turnLengths rest).getD j 0 := by
          intro j; simp [turnLengths]
        constructor
        · rw [etake, egetD]
          have e1 : c + ((t.text.length : ℚ) + ((turnLengths rest).take k).sum) =
              c + (t.text.length : ℚ) + ((turnLengths rest).take k).sum := by ring
          rw [e1]
          exact howns
        · intro j hj
          match j with
          | 0 =>
            intro hcon
            apply hc
            simpa [turnLengths] using hcon
          | j' + 1 =>
            intro hcon
            apply hmin j' (by omega)
            rw [etake, egetD] at hcon
            have e1 : c + ((t.text.length : ℚ) + ((turnLengths rest).take j').sum) =
                c + (t.text.length : ℚ) + ((turnLengths rest).take j').sum := by ring
            rw [e1] at hcon
            exact hcon

theorem firstOwnedTurn_isSome :
    ∀ (turns : List DialogueTurn) (T c q : ℚ), 0 < T →
      c / T ≤ q → q < (c + totalTextChars turns) / T →
      (firstOwnedTurn turns T c q).isSome = true
  | [], T, c, q, hT, h1, h2 => by
      exfalso
      simp [totalTextChars, turnLengths] at h2
      exact absurd h1 (not_le.mpr h2)
  | t :: rest, T, c, q, hT, h1, h2 => by
      simp only [firstOwnedTurn]
      by_cases hc : c / T ≤ q ∧ q < (c + (t.text.length : ℚ)) / T
      · rw [if_pos hc]; rfl
      · rw [if_neg hc]
        rw [Option.isSome_map']
        apply firstOwnedTurn_isSome rest T (c + (t.text.length : ℚ)) q hT
        · exact not_lt.mp ((not_and.mp hc) h1)
        · have etot : totalTextChars (t :: rest) =
              (t.text.length : ℚ) + totalTextChars rest := by
            simp [totalTextChars, turnLengths]
          rw [etot] at h2
          have e1 : c + ((t.text.length : ℚ) + totalTextChars rest) =
              c + (t.text.length : ℚ) + totalTextChars rest := by ring
          rw [e1] at h2
          exact h2

/-- A three-turn dialogue with English text lengths 10 / 20 / 10. -/
def demoThreeTurnScenario : Scenario :=
  { id := "s3", title := "T3", context := "C3", participants := [],
    dialogue :=
      [{ speaker := "A", text := "aaaaaaaaaa", persianText := "x", role := "r" },
       { speaker := "B", text := "bbbbbbbbbbbbbbbbbbbb", persianText := "y", role := "r" },
       { speaker := "A", text := "cccccccccc", persianText := "z", role := "r" }],
    vocabulary := [] }

/-- C4: the turn synchronizer returns -1 with no scenario, at progress 0
and at progress ≥ 99.5; otherwise it returns exactly the first turn whose
proportional character sub-range contains `progress/100` (the spec-side
walk `firstOwnedTurn`, whose `some i` answer provably owns the range with
the cumulative-prefix bounds and is minimal, and which finds an owner
whenever the dialogue has any text); in particular for text lengths
10/20/10 progress 30 yields turn 1. -/
theorem activeTurnIndex_spec :
    ∀ (sc : Scenario) (p : ℚ),
      (activeTurnIndex none p = -1) ∧
      (p = 0 → activeTurnIndex (some sc) p = -1) ∧
      (p ≥ 99.5 → activeTurnIndex (some sc) p = -1) ∧
      (p ≠ 0 → ¬ p ≥ 99.5 →
        activeTurnIndex (some sc) p =
          (match firstOwnedTurn sc.dialogue (totalTextChars sc.dialogue) 0 (p / 100) with
           | some k => (k : ℤ)
           | none => -1)) ∧
      (∀ i, firstOwnedTurn sc.dialogue (totalTextChars sc.dialogue) 0 (p / 100) = some i →
        ownsProgressRange sc.dialogue i (p / 100) ∧
        ∀ j, j < i → ¬ ownsProgressRange sc.dialogue j (p / 100)) ∧
      (0 < totalTextChars sc.dialogue → 0 ≤ p → p < 99.5 →
        (firstOwnedTurn sc.dialogue (totalTextChars sc.dialogue) 0 (p / 100)).isSome = true) ∧
      activeTurnIndex (some demoThreeTurnScenario) 30 = 1 := by
  intro sc p
  refine ⟨rfl, ?_, ?_, ?_, ?_, ?_, ?_⟩
  · intro h; simp [activeTurnIndex, h]
  · intro h; simp [activeTurnIndex, h]
  · intro h1 h2
    simp only [activeTurnIndex]
    rw [if_neg (not_or.mpr ⟨h1, h2⟩), foldl_textLen, zero_add,
      activeTurnLoop_eq_firstOwned]
    cases hF : firstOwnedTurn sc.dialogue (totalTextChars sc.dialogue) 0 (p / 100) with
    | none => rfl
    | some k => simp
  · intro i h
    have hs := firstOwnedTurn_some_spec sc.dialogue (totalTextChars sc.dialogue) 0 (p / 100) i h
    constructor
    · have h1 := hs.1
      simpa [ownsProgressRange, cumCharsBefore] using h1
    · intro j hj hcon
      exact hs.2 j hj (by simpa [ownsProgressRange, cumCharsBefore] using hcon)
  · intro hT h0 h995
    apply firstOwnedTurn_isSome sc.dialogue (totalTextChars sc.dialogue) 0 (p / 100) hT
    · rw [zero_div]
      exact div_nonneg h0 (by norm_num)
    · rw [zero_add, div_self (ne_of_gt hT), div_lt_one (by norm_num : (0 : ℚ) < 100)]
      linarith
  · have h10 : ("aaaaaaaaaa" : String).length = 10 := rfl
    have h20 : ("bbbbbbbbbbbbbbbbbbbb" : String).length = 20 := rfl
    have h10c : ("cccccccccc" : String).length = 10 := rfl
    norm_num [activeTurnIndex, activeTurnLoop, demoThreeTurnScenario, h10, h20, h10c]

/-- Witness for `activeTurnIndex_spec`: the 10/20/10 demo dialogue at
progress 0, 99.6 and 30. -/
theorem activeTurnIndex_spec_witness :
    activeTurnIndex (some demoThreeTurnScenario) 0 = -1 ∧
    ((99.6 : ℚ) ≥ 99.5) ∧
    activeTurnIndex (some demoThreeTurnScenario) (99.6 : ℚ) = -1 ∧
    ((30 : ℚ) ≠ 0) ∧ ¬ ((30 : ℚ) ≥ 99.5) ∧
    activeTurnIndex (some demoThreeTurnScenario) 30 =
      (match firstOwnedTurn demoThreeTurnScenario.dialogue
          (totalTextChars demoThreeTurnScenario.dialogue) 0 ((30 : ℚ) / 100) with
       | some k => (k : ℤ)
       | none => -1) ∧
    activeTurnIndex (some demoThreeTurnScenario) 30 = 1 :=
  ⟨(activeTurnIndex_spec demoThreeTurnScenario 0).2.1 rfl,
   by norm_num,
   (activeTurnIndex_spec demoThreeTurnScenario 99.6).2.2.1 (by norm_num),
   by norm_num, by norm_num,
   (activeTurnIndex_spec demoThreeTurnScenario 30).2.2.2.1 (by norm_num) (by norm_num),
   (activeTurnIndex_spec demoThreeTurnScenario 30).2.2.2.2.2.2⟩

end EnglishLearning
